import Mathlib

/-!
Shallow embedding of the particle-swarm simulation core (the `draw` loop,
`resizeCanvas`, `initParticles` and the SVG-path compile effect of the
SwarmApp component).  JavaScript numbers are modelled as real numbers;
`Math.hypot dx dy` is modelled as `Real.sqrt (dx^2 + dy^2)`;
`Math.random()` draws are modelled as explicit oracle inputs.
-/

namespace Swarm

/-- A swarm particle: canvas-space position, velocity, rotation (radians).
Mirrors the object literal produced by `initParticles`. -/
structure Particle where
  x : ℝ
  y : ℝ
  vx : ℝ
  vy : ℝ
  rotation : ℝ

/-- The numeric simulation parameters read by the `draw` loop
(colors, shape and `svgPathData` are handled separately). -/
structure Params where
  velocityCap : ℝ
  repulsionRadius : ℝ
  attractionRadius : ℝ
  cohesionForce : ℝ
  friction : ℝ
  randomForce : ℝ
  rotationSpeed : ℝ

/-- Euclidean distance between two particles:
`d = Math.hypot(p2.x - p1.x, p2.y - p1.y)`. -/
noncomputable def pdist (p1 p2 : Particle) : ℝ :=
  Real.sqrt ((p2.x - p1.x) ^ 2 + (p2.y - p1.y) ^ 2)

/-- The force contribution accumulated into particle `p1`'s `(fx, fy)` from
one other particle `p2`, exactly as in the inner `j` loop of `draw`:

* `d > 0` and `d < repulsionRadius`:
  `fx -= (dx/d) * repul; fy -= (dy/d) * repul` with
  `repul = (repulsionRadius - d) / repulsionRadius`;
* else `d > 0` and `d < attractionRadius`:
  `fx += (dx/d) * attr * cohesionForce` (same for `fy`) with
  `attr = (d - repulsionRadius) / (attractionRadius - repulsionRadius)`;
* otherwise no contribution. -/
noncomputable def pairForce (P : Params) (p1 p2 : Particle) : ℝ × ℝ :=
  if 0 < pdist p1 p2 then
    if pdist p1 p2 < P.repulsionRadius then
      (-((p2.x - p1.x) / pdist p1 p2) *
         ((P.repulsionRadius - pdist p1 p2) / P.repulsionRadius),
       -((p2.y - p1.y) / pdist p1 p2) *
         ((P.repulsionRadius - pdist p1 p2) / P.repulsionRadius))
    else if pdist p1 p2 < P.attractionRadius then
      (((p2.x - p1.x) / pdist p1 p2) *
         ((pdist p1 p2 - P.repulsionRadius) /
           (P.attractionRadius - P.repulsionRadius)) * P.cohesionForce,
       ((p2.y - p1.y) / pdist p1 p2) *
         ((pdist p1 p2 - P.repulsionRadius) /
           (P.attractionRadius - P.repulsionRadius)) * P.cohesionForce)
    else (0, 0)
  else (0, 0)

/-- One iteration of the inner `j` loop of `draw` acting on the accumulator
`(fx, fy)`: `i == j` is skipped (`continue`), otherwise the pair force from
`particles.current[j]` is added. -/
noncomputable def scanStep (P : Params) (pool : List Particle) (p1 : Particle)
    (i : ℕ) (acc : ℝ × ℝ) (j : ℕ) : ℝ × ℝ :=
  if i = j then acc
  else
    match pool.get? j with
    | some p2 => (acc.1 + (pairForce P p1 p2).1, acc.2 + (pairForce P p1 p2).2)
    | none => acc

/-- The full pairwise scan for particle index `i` (the inner `j` loop of
`draw`): `j` runs over all indices of the current pool, contributions
accumulate additively into `(fx, fy)` starting from `(0, 0)`.  The pool
passed here is the CURRENT pool, i.e. particles with smaller index may
already have been moved this tick. -/
noncomputable def forceOn (P : Params) (pool : List Particle) (i : ℕ)
    (p1 : Particle) : ℝ × ℝ :=
  (List.range pool.length).foldl (scanStep P pool p1 i) (0, 0)

/-- One toroidal wrap of a single coordinate, exactly the two sequential
`if`s of `draw`: `if (x < 0) x += w; if (x > w) x -= w`. -/
noncomputable def wrap1 (w x : ℝ) : ℝ :=
  let x1 := if x < 0 then x + w else x
  if x1 > w then x1 - w else x1

/-- The velocity cap of `draw`: if `speed = Math.hypot(vx, vy)` exceeds
`velocityCap`, both components are multiplied by `ratio = velocityCap / speed`;
otherwise the velocity is untouched. -/
noncomputable def clampVel (cap vx vy : ℝ) : ℝ × ℝ :=
  if Real.sqrt (vx ^ 2 + vy ^ 2) > cap then
    (vx * (cap / Real.sqrt (vx ^ 2 + vy ^ 2)),
     vy * (cap / Real.sqrt (vx ^ 2 + vy ^ 2)))
  else (vx, vy)

/-- The per-particle tail of the `i` loop of `draw`, after the force scan:
jitter, friction, velocity cap, position integration, rotation advance and
wraparound.  `jx, jy` are the two `Math.random()` draws of this particle. -/
noncomputable def integrate (P : Params) (w h : ℝ) (jx jy : ℝ)
    (f : ℝ × ℝ) (p1 : Particle) : Particle :=
  let vx0 := (p1.vx + f.1 + (jx - 0.5) * P.randomForce) * P.friction
  let vy0 := (p1.vy + f.2 + (jy - 0.5) * P.randomForce) * P.friction
  let v := clampVel P.velocityCap vx0 vy0
  { x := wrap1 w (p1.x + v.1)
    y := wrap1 h (p1.y + v.2)
    vx := v.1
    vy := v.2
    rotation := p1.rotation + P.rotationSpeed }

/-- One iteration of the outer `i` loop of `draw`: read `particles.current[i]`,
scan the CURRENT pool for its force, and write the updated particle back in
place. -/
noncomputable def stepIndex (P : Params) (w h : ℝ) (jit : ℕ → ℝ × ℝ)
    (pool : List Particle) (i : ℕ) : List Particle :=
  match pool.get? i with
  | some p1 =>
      pool.set i (integrate P w h (jit i).1 (jit i).2 (forceOn P pool i p1) p1)
  | none => pool

/-- One full simulation tick of `draw` (the mutating outer loop): indices are
processed in order `0, 1, …`, each update is visible to later indices. -/
noncomputable def step (P : Params) (w h : ℝ) (jit : ℕ → ℝ × ℝ)
    (pool : List Particle) : List Particle :=
  (List.range pool.length).foldl (stepIndex P w h jit) pool

/-- The mutable canvas-and-pool state of the animation effect: layout
`width`/`height` and the `particles.current` ref. -/
structure CanvasState where
  width : ℝ
  height : ℝ
  pool : List Particle

/-- The `resizeCanvas` closure, as registered for the window `resize` event:
it reads the new layout size and rescales the canvas; it does not touch
`particles.current`. -/
def resizeCanvas (newW newH : ℝ) (s : CanvasState) : CanvasState :=
  { width := newW, height := newH, pool := s.pool }

/-- The `initParticles` closure: `particleCount` fresh particles with
`x = Math.random() * width`, `y = Math.random() * height`, zero velocity and
`rotation = Math.random() * 2π`; the `Math.random()` draws are supplied by the
oracle `rnd`. -/
noncomputable def initParticles (rnd : ℕ → ℝ × ℝ × ℝ) (particleCount : ℕ)
    (w h : ℝ) : List Particle :=
  (List.range particleCount).map fun k =>
    { x := (rnd k).1 * w
      y := (rnd k).2.1 * h
      vx := 0
      vy := 0
      rotation := (rnd k).2.2 * (2 * Real.pi) }

/-- The four shape variants of the renderer. -/
inductive Shape where
  | circle
  | square
  | line
  | customSVG
  deriving DecidableEq

/-- The state touched by the `[shape, svgPathData]` effect, together with the
particle pool (which that effect never writes): the `customSVGPath2D` ref,
the `svgError` state, and `particles.current`. -/
structure SvgState (α : Type) where
  compiledPath : Option α
  svgError : String
  pool : List Particle

/-- The error message set by the SVG compile effect on a parse failure. -/
def svgErrorMsg : String := "Invalid SVG path data. Example: M0 -1 L1 0 L0 1"

/-- The `[shape, svgPathData]` effect: when `shape` is `customSVG` it runs the
`Path2D` constructor (modelled by the oracle `parse`); on success the compiled
path replaces the cached one and the error is cleared, on failure the cached
path becomes absent and the error message is surfaced.  For other shapes the
effect body is skipped.  The particle pool is never written. -/
def compileEffect (parse : String → Option α) (shape : Shape)
    (svgPathData : String) (s : SvgState α) : SvgState α :=
  if shape = Shape.customSVG then
    match parse svgPathData with
    | some p => { compiledPath := some p, svgError := "", pool := s.pool }
    | none => { compiledPath := none, svgError := svgErrorMsg, pool := s.pool }
  else s

/-- What the renderer emits for one particle, per the shape dispatch at the
end of `draw`. -/
inductive DrawCmd (α : Type) where
  | fillCircle
  | fillSquare
  | strokeLine
  | fillPath (p : α)
  | noDraw
  deriving DecidableEq

/-- The shape dispatch of `draw`: `customSVG` fills the compiled path when one
exists and otherwise falls through every branch, drawing nothing for that
particle. -/
def renderShape (shape : Shape) (compiled : Option α) : DrawCmd α :=
  match shape with
  | Shape.circle => DrawCmd.fillCircle
  | Shape.square => DrawCmd.fillSquare
  | Shape.line => DrawCmd.strokeLine
  | Shape.customSVG =>
      match compiled with
      | some p => DrawCmd.fillPath p
      | none => DrawCmd.noDraw

/-- Modelled from the spec: the browser's `Path2D` constructor (absent from
the repository source) accepts SVG path data built from `M`/`L`/`Z` commands
and numbers — the spec names `M0 -1 L1 0 L0 1` as known-valid and `Z Z Z (`
as known-invalid.  A character of path data is a command letter, a numeric
character, or a blank. -/
def pathCharOk (c : Char) : Bool :=
  c == 'M' || c == 'L' || c == 'Z' || c.isDigit || c == '-' || c == '.' ||
    c == ' '

/-- Modelled from the spec: `new Path2D(s)` succeeds exactly when every
character of `s` is valid path data; a parenthesis (as in the spec's
known-invalid `Z Z Z (`) makes it throw. -/
def path2DParse (s : String) : Option (List Char) :=
  if s.toList.all pathCharOk then some s.toList else none

/-- The spec's known-valid path string. -/
def goodPath : String := "M0 -1 L1 0 L0 1"

/-- The spec's known-invalid path string. -/
def badPath : String := "Z Z Z ("

/-! Concrete parameter sets and particles used by witnesses and
counterexamples. -/

/-- Parameters: cap 100, repulsion 40, attraction 120, cohesion 1,
friction 1, no jitter, no rotation. -/
def P1 : Params := ⟨100, 40, 120, 1, 1, 0, 0⟩

/-- Parameters of the two-particle end-to-end scenario: cap 100,
repulsion 40, attraction 120, cohesion 0, friction 1, no jitter, no
rotation. -/
def P3 : Params := ⟨100, 40, 120, 0, 1, 0, 0⟩

/-- Parameters with friction, jitter, cohesion and repulsion radius all
zero (cap 1, attraction 120). -/
def PZ : Params := ⟨1, 0, 120, 0, 0, 0, 0⟩

/-- Parameters whose attraction radius (10) is below the repulsion
radius (40). -/
def PLE : Params := ⟨100, 40, 10, 1, 1, 0, 0⟩

/-- A particle at the origin, at rest. -/
def pA : Particle := ⟨0, 0, 0, 0, 0⟩

/-- A particle at `(10, 0)`, at rest. -/
def pB : Particle := ⟨10, 0, 0, 0, 0⟩

/-- A particle at `(50, 0)`, at rest. -/
def pC : Particle := ⟨50, 0, 0, 0, 0⟩

/-- Where the origin particle of the two-particle scenario ends up after one
tick on an 800×600 canvas: wrapped to `x = 3197/4 = 799.25` with velocity
`(-3/4, 0)`. -/
noncomputable def pA1 : Particle := ⟨3197 / 4, 0, -(3 / 4), 0, 0⟩

/-! Shared evaluation helpers. -/

lemma sqrt_sum_sq_eq {a b c : ℝ} (hc : 0 ≤ c) (h : a ^ 2 + b ^ 2 = c ^ 2) :
    Real.sqrt (a ^ 2 + b ^ 2) = c := by
  rw [h, Real.sqrt_sq hc]

lemma pdist_eq (p1 p2 : Particle) {c : ℝ} (hc : 0 ≤ c)
    (h : (p2.x - p1.x) ^ 2 + (p2.y - p1.y) ^ 2 = c ^ 2) : pdist p1 p2 = c := by
  rw [pdist, h, Real.sqrt_sq hc]

lemma pdist_pA_pB : pdist pA pB = 10 := by
  refine pdist_eq _ _ (by norm_num) ?_
  show ((10 : ℝ) - 0) ^ 2 + ((0 : ℝ) - 0) ^ 2 = 10 ^ 2
  norm_num

lemma pdist_pA_pC : pdist pA pC = 50 := by
  refine pdist_eq _ _ (by norm_num) ?_
  show ((50 : ℝ) - 0) ^ 2 + ((0 : ℝ) - 0) ^ 2 = 50 ^ 2
  norm_num

end Swarm

namespace Swarm

/-- C5 counterexample: a particle whose pre-wrap coordinate is exactly the
canvas dimension (here `400`, inside the claimed pre-wrap range
`[-400, 800]`) is left at `400` by the wraparound, which is not in the
half-open interval `[0, 400)`. -/
theorem wrap_boundary_counterexample : ¬ wrap1 400 400 < 400 := by
  have h : wrap1 400 400 = 400 := by
    unfold wrap1
    rw [if_neg (by norm_num : ¬ (400 : ℝ) < 0),
      if_neg (by norm_num : ¬ (400 : ℝ) > 400)]
  rw [h]
  exact lt_irrefl 400

/-- C5 (amended): for a pre-wrap coordinate in `[-dimension, 2·dimension]`
the wraparound step lands in the CLOSED interval `[0, dimension]`; the upper
endpoint is attainable (see the counterexample), so `[0, dimension)` is off
by the boundary point. -/
theorem wrap_into_closed_interval (w x : ℝ) (hw : 0 ≤ w) (h1 : -w ≤ x)
    (h2 : x ≤ 2 * w) : 0 ≤ wrap1 w x ∧ wrap1 w x ≤ w := by
  simp only [wrap1]
  split_ifs <;> constructor <;> linarith

/-- C5 witness: at `w = 400`, `x = -100` the wrapped coordinate is within
`[0, 400]`. -/
theorem wrap_into_closed_interval_witness :
    0 ≤ wrap1 400 (-100) ∧ wrap1 400 (-100) ≤ 400 :=
  wrap_into_closed_interval 400 (-100) (by norm_num) (by norm_num)
    (by norm_num)

/-- C6: with `velocityCap > 0`, the post-clamp speed never exceeds
`velocityCap`; when the pre-clamp speed exceeds the cap both components are
multiplied by the same positive ratio and the post-clamp speed is exactly
`velocityCap`; otherwise the velocity is unchanged. -/
theorem clampVel_spec (cap vx vy : ℝ) (hcap : 0 < cap) :
    Real.sqrt ((clampVel cap vx vy).1 ^ 2 + (clampVel cap vx vy).2 ^ 2) ≤
        cap ∧
      (Real.sqrt (vx ^ 2 + vy ^ 2) > cap →
        ∃ r : ℝ, 0 < r ∧ (clampVel cap vx vy).1 = vx * r ∧
          (clampVel cap vx vy).2 = vy * r ∧
          Real.sqrt ((clampVel cap vx vy).1 ^ 2 +
            (clampVel cap vx vy).2 ^ 2) = cap) ∧
      (¬ Real.sqrt (vx ^ 2 + vy ^ 2) > cap → clampVel cap vx vy = (vx, vy)) := by
  set s := Real.sqrt (vx ^ 2 + vy ^ 2) with hs
  have hs0 : 0 ≤ s := Real.sqrt_nonneg _
  have hsq : s ^ 2 = vx ^ 2 + vy ^ 2 := Real.sq_sqrt (by positivity)
  by_cases hgt : s > cap
  · have hspos : 0 < s := lt_trans hcap hgt
    have hcl : clampVel cap vx vy = (vx * (cap / s), vy * (cap / s)) := by
      unfold clampVel
      rw [← hs, if_pos hgt]
    have hpost :
        (vx * (cap / s)) ^ 2 + (vy * (cap / s)) ^ 2 = cap ^ 2 := by
      have hne : s ≠ 0 := ne_of_gt hspos
      field_simp
      nlinarith [hsq]
    have hroot :
        Real.sqrt ((vx * (cap / s)) ^ 2 + (vy * (cap / s)) ^ 2) = cap :=
      sqrt_sum_sq_eq (le_of_lt hcap) hpost
    refine ⟨?_, fun _ => ⟨cap / s, by positivity, ?_, ?_, ?_⟩, fun hn => absurd hgt hn⟩
    · rw [hcl]
      simpa using le_of_eq hroot
    · rw [hcl]
    · rw [hcl]
    · rw [hcl]
      simpa using hroot
  · have hcl : clampVel cap vx vy = (vx, vy) := by
      unfold clampVel
      rw [← hs, if_neg hgt]
    refine ⟨?_, fun hx => absurd hx hgt, fun _ => hcl⟩
    rw [hcl]
    simpa using le_of_not_lt hgt

/-- C6 witness: at `cap = 1`, `v = (3, 4)` the clamped speed is at most 1. -/
theorem clampVel_spec_witness :
    Real.sqrt ((clampVel 1 3 4).1 ^ 2 + (clampVel 1 3 4).2 ^ 2) ≤ 1 :=
  (clampVel_spec 1 3 4 (by norm_num)).1

/-- C10: in the pairwise force scan, division by `d` happens only under the
guard `0 < d`, and whenever the attraction branch's condition holds
(`d > 0`, `¬ d < repulsionRadius`, `d < attractionRadius`) the denominator
`attractionRadius - repulsionRadius` is strictly positive; when
`attractionRadius ≤ repulsionRadius` the attraction branch is unreachable and
the scan contributes nothing outside the repulsion range. -/
theorem force_scan_division_safe (P : Params) (p1 p2 : Particle) :
    (0 < pdist p1 p2 → ¬ pdist p1 p2 < P.repulsionRadius →
      pdist p1 p2 < P.attractionRadius →
      0 < P.attractionRadius - P.repulsionRadius ∧ pdist p1 p2 ≠ 0) ∧
      (P.attractionRadius ≤ P.repulsionRadius →
        ¬ pdist p1 p2 < P.repulsionRadius → pairForce P p1 p2 = (0, 0)) := by
  constructor
  · intro h0 hR hA
    exact ⟨by push_neg at hR; linarith, ne_of_gt h0⟩
  · intro hle hR
    have h2 : ¬ pdist p1 p2 < P.attractionRadius := by
      push_neg at hR ⊢
      linarith
    unfold pairForce
    by_cases h0 : 0 < pdist p1 p2
    · rw [if_pos h0, if_neg hR, if_neg h2]
    · rw [if_neg h0]

/-- C10 witness: with repulsion radius 40 and attraction radius 120 the
branch guard at distance 50 forces a positive denominator 80 and a nonzero
divisor; with attraction radius 10 ≤ repulsion radius 40 the scan yields no
force at distance 50. -/
theorem force_scan_division_safe_witness :
    (0 < P1.attractionRadius - P1.repulsionRadius ∧ pdist pA pC ≠ 0) ∧
      pairForce PLE pA pC = (0, 0) :=
  ⟨(force_scan_division_safe P1 pA pC).1
      (by rw [pdist_pA_pC]; norm_num)
      (by rw [pdist_pA_pC]; simp only [P1]; norm_num)
      (by rw [pdist_pA_pC]; simp only [P1]; norm_num),
    (force_scan_division_safe PLE pA pC).2 (by simp only [PLE]; norm_num)
      (by rw [pdist_pA_pC]; simp only [PLE]; norm_num)⟩

/-- C1 counterexample: with repulsion radius 40, particle `i` at the origin
and particle `j` at `(10, 0)` (distance 10), the accumulated contribution is
`(-3/4, 0)` — along j→i — whereas a force along the normalized i→j direction
of magnitude `(40 - 10)/40` would be `(3/4, 0)`. -/
theorem repulsion_direction_counterexample :
    pairForce P1 pA pB = (-(3 / 4), 0) ∧
      pairForce P1 pA pB ≠
        (((P1.repulsionRadius - pdist pA pB) / P1.repulsionRadius) *
           ((pB.x - pA.x) / pdist pA pB),
         ((P1.repulsionRadius - pdist pA pB) / P1.repulsionRadius) *
           ((pB.y - pA.y) / pdist pA pB)) := by
  have h : pairForce P1 pA pB = (-(3 / 4), 0) := by
    unfold pairForce
    rw [pdist_pA_pB, if_pos (by norm_num : (0 : ℝ) < 10),
      if_pos (by simp only [P1]; norm_num : (10 : ℝ) < P1.repulsionRadius)]
    simp only [P1, pA, pB]
    norm_num
  refine ⟨h, ?_⟩
  rw [h, pdist_pA_pB]
  simp only [P1, pA, pB, Prod.mk.injEq]
  norm_num

/-- C1 (amended): for `0 < d < repulsionRadius` the pair contribution is the
NEGATED normalized i→j direction (i.e. it points along j→i, away from `j`)
scaled by `(repulsionRadius - d) / repulsionRadius`; that magnitude is
monotonically decreasing in `d` on `[0, repulsionRadius)`, and for
`d ≥ repulsionRadius` (strict boundary) no repulsion is contributed — the
contribution is zero once `d` is also at or beyond the attraction radius. -/
theorem repulsion_along_j_to_i (P : Params) (p1 p2 : Particle)
    (h0 : 0 < pdist p1 p2) (hR : pdist p1 p2 < P.repulsionRadius) :
    pairForce P p1 p2 =
      (-((p2.x - p1.x) / pdist p1 p2) *
         ((P.repulsionRadius - pdist p1 p2) / P.repulsionRadius),
       -((p2.y - p1.y) / pdist p1 p2) *
         ((P.repulsionRadius - pdist p1 p2) / P.repulsionRadius)) ∧
      (∀ d1 d2 : ℝ, 0 ≤ d1 → d1 ≤ d2 → d2 < P.repulsionRadius →
        (P.repulsionRadius - d2) / P.repulsionRadius ≤
          (P.repulsionRadius - d1) / P.repulsionRadius) ∧
      (∀ q1 q2 : Particle, ¬ pdist q1 q2 < P.repulsionRadius →
        ¬ pdist q1 q2 < P.attractionRadius → pairForce P q1 q2 = (0, 0)) := by
  have hRpos : 0 < P.repulsionRadius := lt_trans h0 hR
  refine ⟨?_, ?_, ?_⟩
  · unfold pairForce
    rw [if_pos h0, if_pos hR]
  · intro d1 d2 hd1 hd12 hd2
    exact (div_le_div_iff_of_pos_right hRpos).mpr (by linarith)
  · intro q1 q2 hr ha
    unfold pairForce
    by_cases h0' : 0 < pdist q1 q2
    · rw [if_pos h0', if_neg hr, if_neg ha]
    · rw [if_neg h0']

/-- C1 witness: the amended repulsion law instantiated at repulsion radius
40, particles at the origin and `(10, 0)`. -/
theorem repulsion_along_j_to_i_witness :
    pairForce P1 pA pB =
      (-((pB.x - pA.x) / pdist pA pB) *
         ((P1.repulsionRadius - pdist pA pB) / P1.repulsionRadius),
       -((pB.y - pA.y) / pdist pA pB) *
         ((P1.repulsionRadius - pdist pA pB) / P1.repulsionRadius)) :=
  (repulsion_along_j_to_i P1 pA pB (by rw [pdist_pA_pB]; norm_num)
    (by rw [pdist_pA_pB]; simp only [P1]; norm_num)).1

/-- C2 counterexample: with repulsion radius 40, attraction radius 120,
cohesion 1, particle `i` at the origin and `j` at `(50, 0)` (distance 50),
the accumulated contribution is `(1/8, 0)` — along i→j, toward `j` — whereas
a force along the j→i direction of magnitude
`((50 - 40)/(120 - 40)) * 1` would be `(-1/8, 0)`. -/
theorem attraction_direction_counterexample :
    pairForce P1 pA pC = (1 / 8, 0) ∧
      pairForce P1 pA pC ≠
        (-((pC.x - pA.x) / pdist pA pC) *
           ((pdist pA pC - P1.repulsionRadius) /
             (P1.attractionRadius - P1.repulsionRadius)) * P1.cohesionForce,
         -((pC.y - pA.y) / pdist pA pC) *
           ((pdist pA pC - P1.repulsionRadius) /
             (P1.attractionRadius - P1.repulsionRadius)) * P1.cohesionForce) := by
  have h : pairForce P1 pA pC = (1 / 8, 0) := by
    unfold pairForce
    rw [pdist_pA_pC, if_pos (by norm_num : (0 : ℝ) < 50),
      if_neg (by simp only [P1]; norm_num : ¬ (50 : ℝ) < P1.repulsionRadius),
      if_pos (by simp only [P1]; norm_num : (50 : ℝ) < P1.attractionRadius)]
    simp only [P1, pA, pC]
    norm_num
  refine ⟨h, ?_⟩
  rw [h, pdist_pA_pC]
  simp only [P1, pA, pC, Prod.mk.injEq]
  norm_num

/-- C2 (amended): for `repulsionRadius ≤ d < attractionRadius` the pair
contribution is along the normalized i→j direction (toward `j`), scaled by
`((d - repulsionRadius) / (attractionRadius - repulsionRadius)) *
cohesionForce`; that scalar is at most `cohesionForce` whenever
`cohesionForce ≥ 0`; below the repulsion radius only the repulsion term
appears (no attraction contribution), and at or beyond the attraction radius
the contribution is zero. -/
theorem attraction_along_i_to_j (P : Params) (p1 p2 : Particle)
    (h0 : 0 < pdist p1 p2) (hR : ¬ pdist p1 p2 < P.repulsionRadius)
    (hA : pdist p1 p2 < P.attractionRadius) :
    pairForce P p1 p2 =
      (((p2.x - p1.x) / pdist p1 p2) *
         ((pdist p1 p2 - P.repulsionRadius) /
           (P.attractionRadius - P.repulsionRadius)) * P.cohesionForce,
       ((p2.y - p1.y) / pdist p1 p2) *
         ((pdist p1 p2 - P.repulsionRadius) /
           (P.attractionRadius - P.repulsionRadius)) * P.cohesionForce) ∧
      (0 ≤ P.cohesionForce →
        (pdist p1 p2 - P.repulsionRadius) /
            (P.attractionRadius - P.repulsionRadius) * P.cohesionForce ≤
          P.cohesionForce) ∧
      (∀ q1 q2 : Particle, 0 < pdist q1 q2 →
        pdist q1 q2 < P.repulsionRadius →
        pairForce P q1 q2 =
          (-((q2.x - q1.x) / pdist q1 q2) *
             ((P.repulsionRadius - pdist q1 q2) / P.repulsionRadius),
           -((q2.y - q1.y) / pdist q1 q2) *
             ((P.repulsionRadius - pdist q1 q2) / P.repulsionRadius))) ∧
      (∀ q1 q2 : Particle, ¬ pdist q1 q2 < P.repulsionRadius →
        ¬ pdist q1 q2 < P.attractionRadius → pairForce P q1 q2 = (0, 0)) := by
  push_neg at hR
  have hden : 0 < P.attractionRadius - P.repulsionRadius := by linarith
  refine ⟨?_, ?_, ?_, ?_⟩
  · unfold pairForce
    rw [if_pos h0, if_neg (not_lt.mpr hR), if_pos hA]
  · intro hc
    have hattr1 : (pdist p1 p2 - P.repulsionRadius) /
        (P.attractionRadius - P.repulsionRadius) ≤ 1 := by
      rw [div_le_one hden]
      linarith
    exact mul_le_of_le_one_left hc hattr1
  · intro q1 q2 h0' hR'
    unfold pairForce
    rw [if_pos h0', if_pos hR']
  · intro q1 q2 hr ha
    unfold pairForce
    by_cases h0' : 0 < pdist q1 q2
    · rw [if_pos h0', if_neg hr, if_neg ha]
    · rw [if_neg h0']

/-- C2 witness: the amended attraction law instantiated at repulsion radius
40, attraction radius 120, cohesion 1, particles at the origin and
`(50, 0)`. -/
theorem attraction_along_i_to_j_witness :
    pairForce P1 pA pC =
      (((pC.x - pA.x) / pdist pA pC) *
         ((pdist pA pC - P1.repulsionRadius) /
           (P1.attractionRadius - P1.repulsionRadius)) * P1.cohesionForce,
       ((pC.y - pA.y) / pdist pA pC) *
         ((pdist pA pC - P1.repulsionRadius) /
           (P1.attractionRadius - P1.repulsionRadius)) * P1.cohesionForce) :=
  (attraction_along_i_to_j P1 pA pC (by rw [pdist_pA_pC]; norm_num)
    (by rw [pdist_pA_pC]; simp only [P1]; norm_num)
    (by rw [pdist_pA_pC]; simp only [P1]; norm_num)).1

/-! Helpers for the friction-zero analysis (C7). -/

lemma pairForce_zero_params (P : Params) (hc : P.cohesionForce = 0)
    (hR : P.repulsionRadius = 0) (p1 p2 : Particle) :
    pairForce P p1 p2 = (0, 0) := by
  unfold pairForce
  split_ifs with h0 h1 h2
  · rw [hR] at h1
    exact absurd h1 (not_lt.mpr (le_of_lt h0))
  · rw [hc]
    norm_num
  · rfl
  · rfl

lemma scanStep_zero_params (P : Params) (hc : P.cohesionForce = 0)
    (hR : P.repulsionRadius = 0) (pool : List Particle) (p1 : Particle)
    (i : ℕ) (acc : ℝ × ℝ) (j : ℕ) : scanStep P pool p1 i acc j = acc := by
  unfold scanStep
  by_cases hj : i = j
  · rw [if_pos hj]
  · rw [if_neg hj]
    cases hjg : pool.get? j with
    | none => rfl
    | some p2 =>
      simp only [pairForce_zero_params P hc hR p1 p2, add_zero]

lemma forceOn_zero_params (P : Params) (hc : P.cohesionForce = 0)
    (hR : P.repulsionRadius = 0) (pool : List Particle) (i : ℕ)
    (p1 : Particle) : forceOn P pool i p1 = (0, 0) := by
  unfold forceOn
  generalize List.range pool.length = l
  induction l with
  | nil => rfl
  | cons j t ih =>
      rw [List.foldl_cons, scanStep_zero_params P hc hR pool p1 i _ j, ih]

lemma clampVel_of_le {cap vx vy s : ℝ}
    (hs : Real.sqrt (vx ^ 2 + vy ^ 2) = s) (hle : s ≤ cap) :
    clampVel cap vx vy = (vx, vy) := by
  unfold clampVel
  rw [hs, if_neg (not_lt.mpr hle)]

lemma clampVel_zero {cap : ℝ} (hcap : 0 ≤ cap) : clampVel cap 0 0 = (0, 0) :=
  clampVel_of_le (by norm_num) hcap

lemma integrate_velocity_zero (P : Params) (w h jx jy : ℝ) (f : ℝ × ℝ)
    (p : Particle) (hfr : P.friction = 0) (hcap : 0 ≤ P.velocityCap) :
    (integrate P w h jx jy f p).vx = 0 ∧ (integrate P w h jx jy f p).vy = 0 := by
  simp only [integrate, hfr, mul_zero, clampVel_zero hcap]
  simp

lemma stepIndex_length (P : Params) (w h : ℝ) (jit : ℕ → ℝ × ℝ)
    (q : List Particle) (i : ℕ) :
    (stepIndex P w h jit q i).length = q.length := by
  unfold stepIndex
  cases q.get? i with
  | none => rfl
  | some p1 => simp [List.length_set]

lemma stepIndex_get_ne (P : Params) (w h : ℝ) (jit : ℕ → ℝ × ℝ)
    (q : List Particle) (i j : ℕ) (hij : i ≠ j) :
    (stepIndex P w h jit q i).get? j = q.get? j := by
  unfold stepIndex
  cases q.get? i with
  | none => rfl
  | some p1 => exact List.get?_set_ne _ _ hij

lemma stepIndex_get_self (P : Params) (w h : ℝ) (jit : ℕ → ℝ × ℝ)
    (q : List Particle) (i : ℕ) (p : Particle)
    (hp : (stepIndex P w h jit q i).get? i = some p) :
    ∃ jx jy f p0, p = integrate P w h jx jy f p0 := by
  unfold stepIndex at hp
  cases hq : q.get? i with
  | none =>
      exact absurd hp (by simp [← List.get?_eq_getElem?, hq])
  | some p1 =>
      rw [hq] at hp
      have hlen : i < q.length := by
        have := List.get?_eq_some.mp hq
        exact this.1
      rw [List.get?_set_eq_of_lt _ hlen] at hp
      exact ⟨(jit i).1, (jit i).2, forceOn P q i p1, p1,
        (Option.some_injective _ hp).symm⟩

lemma foldl_stepIndex_get (P : Params) (w h : ℝ) (jit : ℕ → ℝ × ℝ) :
    ∀ (l : List ℕ) (q : List Particle) (j : ℕ) (p : Particle),
      (l.foldl (stepIndex P w h jit) q).get? j = some p →
      (q.get? j = some p ∧ j ∉ l) ∨
        ∃ jx jy f p0, p = integrate P w h jx jy f p0 := by
  intro l
  induction l with
  | nil => exact fun q j p hp => Or.inl ⟨hp, by simp⟩
  | cons i t ih =>
      intro q j p hp
      rw [List.foldl_cons] at hp
      rcases ih (stepIndex P w h jit q i) j p hp with ⟨hget, hnot⟩ | hint
      · by_cases hij : i = j
        · subst hij
          exact Or.inr (stepIndex_get_self P w h jit q i p hget)
        · rw [stepIndex_get_ne P w h jit q i j hij] at hget
          exact Or.inl ⟨hget, by
            intro hmem
            rcases List.mem_cons.mp hmem with hji | hjt
            · exact hij hji.symm
            · exact hnot hjt⟩
      · exact Or.inr hint

lemma foldl_stepIndex_length (P : Params) (w h : ℝ) (jit : ℕ → ℝ × ℝ) :
    ∀ (l : List ℕ) (q : List Particle),
      (l.foldl (stepIndex P w h jit) q).length = q.length := by
  intro l
  induction l with
  | nil => exact fun q => rfl
  | cons i t ih =>
      intro q
      rw [List.foldl_cons, ih, stepIndex_length]

/-- C7 counterexample particle: at the origin with velocity `(1, 0)`. -/
def pV : Particle := ⟨0, 0, 1, 0, 0⟩

/-- C7 (amended): with `cohesionForce = 0` and `repulsionRadius = 0` the
pairwise scan accumulates identically zero force for every particle; but with
`friction = 0` (and a nonnegative `velocityCap`, per the data model) every
particle's post-step velocity is ZERO — the friction multiplier wipes the
pre-step velocity, so velocities are preserved only when they were already
zero, not in general. -/
theorem forces_vanish_friction_zero (P : Params) (w h : ℝ)
    (jit : ℕ → ℝ × ℝ) (pool : List Particle) (hfr : P.friction = 0)
    (hrf : P.randomForce = 0) (hc : P.cohesionForce = 0)
    (hR : P.repulsionRadius = 0) (hcap : 0 ≤ P.velocityCap) :
    (∀ (q : List Particle) (i : ℕ) (p1 : Particle),
      forceOn P q i p1 = (0, 0)) ∧
      ∀ p ∈ step P w h jit pool, p.vx = 0 ∧ p.vy = 0 := by
  refine ⟨fun q i p1 => forceOn_zero_params P hc hR q i p1, ?_⟩
  intro p hp
  rw [List.mem_iff_getElem] at hp
  obtain ⟨n, hn, hget⟩ := hp
  have hsome : (step P w h jit pool).get? n = some p := by
    rw [List.get?_eq_getElem?]
    exact (List.getElem?_eq_some.mpr ⟨hn, hget⟩)
  unfold step at hsome
  rcases foldl_stepIndex_get P w h jit (List.range pool.length) pool n p
      hsome with ⟨hget', hnot⟩ | ⟨jx, jy, f, p0, hpint⟩
  · exfalso
    have hlt : n < pool.length := by
      have := List.get?_eq_some.mp hget'
      exact this.1
    exact hnot (List.mem_range.mpr hlt)
  · rw [hpint]
    exact integrate_velocity_zero P w h jx jy f p0 hfr hcap

/-- Evaluation of one tick for a singleton pool (the fold visits only
index 0). -/
lemma step_single (P : Params) (w h : ℝ) (jit : ℕ → ℝ × ℝ) (a : Particle) :
    step P w h jit [a] =
      [integrate P w h (jit 0).1 (jit 0).2 (forceOn P [a] 0 a) a] := rfl

/-- For a singleton pool the scan skips its only index and accumulates
nothing. -/
lemma forceOn_single (P : Params) (a : Particle) :
    forceOn P [a] 0 a = (0, 0) := rfl

/-- C7 witness: the amended statement instantiated at the friction-zero
parameter set `PZ`, a 100×100 canvas and a one-particle pool. -/
theorem forces_vanish_friction_zero_witness :
    (∀ (q : List Particle) (i : ℕ) (p1 : Particle),
      forceOn PZ q i p1 = (0, 0)) ∧
      ∀ p ∈ step PZ 100 100 (fun _ => (0, 0)) [pV],
        p.vx = 0 ∧ p.vy = 0 :=
  forces_vanish_friction_zero PZ 100 100 (fun _ => (0, 0)) [pV]
    (by simp only [PZ]) (by simp only [PZ]) (by simp only [PZ])
    (by simp only [PZ]) (by simp only [PZ]; norm_num)

/-- C7 counterexample: running the step with `friction = 0`,
`randomForce = 0`, `cohesionForce = 0`, `repulsionRadius = 0` on a particle
with pre-step velocity `(1, 0)` yields post-step velocity `(0, 0)` — the
velocity is NOT left at its pre-step value. -/
theorem friction_zero_velocity_counterexample :
    step PZ 100 100 (fun _ => (0, 0)) [pV] = [⟨0, 0, 0, 0, 0⟩] ∧
      pV.vx = 1 := by
  constructor
  · rw [step_single, forceOn_single]
    have hvx : ((pV.vx + (0 : ℝ) + ((0 : ℝ) - 0.5) * PZ.randomForce) *
        PZ.friction) = 0 := by
      simp only [pV, PZ]
      norm_num
    have hvy : ((pV.vy + (0 : ℝ) + ((0 : ℝ) - 0.5) * PZ.randomForce) *
        PZ.friction) = 0 := by
      simp only [pV, PZ]
      norm_num
    simp only [integrate, hvx, hvy, clampVel_zero
      (by simp only [PZ]; norm_num : (0 : ℝ) ≤ PZ.velocityCap)]
    have hx : wrap1 100 (pV.x + 0) = 0 := by
      show wrap1 100 ((0 : ℝ) + 0) = 0
      unfold wrap1
      norm_num
    have hy : wrap1 100 (pV.y + 0) = 0 := by
      show wrap1 100 ((0 : ℝ) + 0) = 0
      unfold wrap1
      norm_num
    simp only [hx, hy]
    simp only [pV, PZ]
    norm_num
  · rfl

/-! Evaluation of one tick on a two-particle pool (C3). -/

/-- One tick on a two-element pool, unfolded: index 0 is scanned against the
ORIGINAL pool, index 1 against the pool in which index 0 has already been
moved. -/
lemma step_pair (P : Params) (w h : ℝ) (jit : ℕ → ℝ × ℝ) (a b : Particle) :
    step P w h jit [a, b] =
      [integrate P w h (jit 0).1 (jit 0).2 (forceOn P [a, b] 0 a) a,
       integrate P w h (jit 1).1 (jit 1).2
         (forceOn P
           [integrate P w h (jit 0).1 (jit 0).2 (forceOn P [a, b] 0 a) a, b]
           1 b) b] := rfl

lemma forceOn_pair_left (P : Params) (a b : Particle) :
    forceOn P [a, b] 0 a = pairForce P a b := by
  show (0 + (pairForce P a b).1, 0 + (pairForce P a b).2) = pairForce P a b
  simp

lemma forceOn_pair_right (P : Params) (a b : Particle) :
    forceOn P [a, b] 1 b = pairForce P b a := by
  show (0 + (pairForce P b a).1, 0 + (pairForce P b a).2) = pairForce P b a
  simp

lemma pairForce_P3_pA_pB : pairForce P3 pA pB = (-(3 / 4), 0) := by
  unfold pairForce
  rw [pdist_pA_pB, if_pos (by norm_num : (0 : ℝ) < 10),
    if_pos (by simp only [P3]; norm_num : (10 : ℝ) < P3.repulsionRadius)]
  simp only [P3, pA, pB]
  norm_num

lemma pdist_pB_pA1 : pdist pB pA1 = 3157 / 4 := by
  refine pdist_eq _ _ (by norm_num) ?_
  show ((3197 / 4 : ℝ) - 10) ^ 2 + ((0 : ℝ) - 0) ^ 2 = (3157 / 4) ^ 2
  norm_num

lemma pairForce_P3_pB_pA1 : pairForce P3 pB pA1 = (0, 0) := by
  unfold pairForce
  rw [pdist_pB_pA1, if_pos (by norm_num : (0 : ℝ) < 3157 / 4),
    if_neg (by simp only [P3]; norm_num :
      ¬ (3157 / 4 : ℝ) < P3.repulsionRadius),
    if_neg (by simp only [P3]; norm_num :
      ¬ (3157 / 4 : ℝ) < P3.attractionRadius)]

lemma integrate_pA (jx jy : ℝ) :
    integrate P3 800 600 jx jy (-(3 / 4), 0) pA = pA1 := by
  simp only [integrate]
  have hvx : (pA.vx + (-(3 / 4), (0 : ℝ)).1 + (jx - 0.5) * P3.randomForce) *
      P3.friction = -(3 / 4) := by
    simp only [pA, P3]
    norm_num
  have hvy : (pA.vy + (-(3 / 4), (0 : ℝ)).2 + (jy - 0.5) * P3.randomForce) *
      P3.friction = 0 := by
    simp only [pA, P3]
    norm_num
  rw [hvx, hvy]
  have hsq : Real.sqrt ((-(3 / 4) : ℝ) ^ 2 + (0 : ℝ) ^ 2) = 3 / 4 :=
    sqrt_sum_sq_eq (by norm_num) (by norm_num)
  have hcl : clampVel P3.velocityCap (-(3 / 4)) 0 = (-(3 / 4), 0) :=
    clampVel_of_le hsq (by simp only [P3]; norm_num)
  rw [hcl]
  have hx : wrap1 800 (pA.x + (-(3 / 4), (0 : ℝ)).1) = 3197 / 4 := by
    show wrap1 800 ((0 : ℝ) + -(3 / 4)) = 3197 / 4
    simp only [wrap1]
    rw [if_pos (by norm_num : (0 : ℝ) + -(3 / 4) < 0),
      if_neg (by norm_num : ¬ (0 : ℝ) + -(3 / 4) + 800 > 800)]
    norm_num
  have hy : wrap1 600 (pA.y + (-(3 / 4), (0 : ℝ)).2) = 0 := by
    show wrap1 600 ((0 : ℝ) + 0) = 0
    simp only [wrap1]
    rw [if_neg (by norm_num : ¬ (0 : ℝ) + 0 < 0),
      if_neg (by norm_num : ¬ (0 : ℝ) + 0 > 600)]
    norm_num
  rw [hx, hy]
  simp only [pA, pA1, P3, Particle.mk.injEq]
  norm_num

lemma integrate_pB (jx jy : ℝ) :
    integrate P3 800 600 jx jy (0, 0) pB = pB := by
  simp only [integrate]
  have hvx : (pB.vx + ((0 : ℝ), (0 : ℝ)).1 + (jx - 0.5) * P3.randomForce) *
      P3.friction = 0 := by
    simp only [pB, P3]
    norm_num
  have hvy : (pB.vy + ((0 : ℝ), (0 : ℝ)).2 + (jy - 0.5) * P3.randomForce) *
      P3.friction = 0 := by
    simp only [pB, P3]
    norm_num
  rw [hvx, hvy]
  have hcl : clampVel P3.velocityCap 0 0 = (0, 0) :=
    clampVel_zero (by simp only [P3]; norm_num)
  rw [hcl]
  have hx : wrap1 800 (pB.x + ((0 : ℝ), (0 : ℝ)).1) = 10 := by
    show wrap1 800 ((10 : ℝ) + 0) = 10
    simp only [wrap1]
    rw [if_neg (by norm_num : ¬ (10 : ℝ) + 0 < 0),
      if_neg (by norm_num : ¬ (10 : ℝ) + 0 > 800)]
    norm_num
  have hy : wrap1 600 (pB.y + ((0 : ℝ), (0 : ℝ)).2) = 0 := by
    show wrap1 600 ((0 : ℝ) + 0) = 0
    simp only [wrap1]
    rw [if_neg (by norm_num : ¬ (0 : ℝ) + 0 < 0),
      if_neg (by norm_num : ¬ (0 : ℝ) + 0 > 600)]
    norm_num
  rw [hx, hy]
  simp only [pB, P3, Particle.mk.injEq]
  norm_num

/-- Full evaluation of one tick of the two-particle scenario on an 800×600
canvas, for any jitter oracle (the jitter is multiplied by
`randomForce = 0`). -/
lemma step_c3_eval (jit : ℕ → ℝ × ℝ) :
    step P3 800 600 jit [pA, pB] = [pA1, pB] := by
  rw [step_pair, forceOn_pair_left, pairForce_P3_pA_pB, integrate_pA,
    forceOn_pair_right, pairForce_P3_pB_pA1, integrate_pB]

/-- C3 counterexample: in the two-particle scenario (particles at `(0,0)` and
`(10,0)`, repulsion 40, attraction 120, cohesion 0, jitter 0, rotation 0,
friction 1, cap 100, 800×600 canvas) one tick leaves particle 1 with velocity
exactly `(0, 0)` — not a nonzero velocity of magnitude equal to particle 0's:
particle 0 is moved (and wrapped to `x = 799.25`) before particle 1's scan,
so particle 1 sees it at distance 789.25, beyond the attraction radius. -/
theorem two_particle_tick_counterexample :
    (step P3 800 600 (fun _ => (0, 0)) [pA, pB]).get? 1 = some pB ∧
      pB.vx = 0 ∧ pB.vy = 0 := by
  refine ⟨?_, rfl, rfl⟩
  rw [step_c3_eval]
  rfl

/-- C3 (amended): forces are computed against the pool as already mutated
earlier in the same scan, not a start-of-tick snapshot.  In the two-particle
scenario one tick moves particle 0 away from particle 1 (velocity
`(-3/4, 0)`, wrapped to `x = 3197/4`), while particle 1 — scanning the
already-updated pool — accumulates no force and keeps velocity `(0, 0)`. -/
theorem two_particle_tick_eval (jit : ℕ → ℝ × ℝ) :
    step P3 800 600 jit [pA, pB] = [pA1, pB] ∧
      pA1.vx < 0 ∧ pA1.vy = 0 ∧ pB.vx = 0 ∧ pB.vy = 0 := by
  refine ⟨step_c3_eval jit, ?_, rfl, rfl, rfl⟩
  show -(3 / 4 : ℝ) < 0
  norm_num

/-- C3 witness: the amended statement at the all-zero jitter oracle. -/
theorem two_particle_tick_eval_witness :
    step P3 800 600 (fun _ => (0, 0)) [pA, pB] = [pA1, pB] ∧
      pA1.vx < 0 ∧ pA1.vy = 0 ∧ pB.vx = 0 ∧ pB.vy = 0 :=
  two_particle_tick_eval (fun _ => (0, 0))

/-! Surface resize (C4). -/

/-- Pre-resize canvas state: 800×600 with one particle at `(700, 500)`. -/
def s800 : CanvasState := ⟨800, 600, [⟨700, 500, 0, 0, 0⟩]⟩

/-- C4 counterexample: after the registered resize handler runs for a
800×600 → 400×300 resize, the pool still holds the pre-resize particle at
`(700, 500)`, whose position is NOT in `[0, 400)×[0, 300)` — position data
survives a resize event. -/
theorem resize_counterexample :
    (resizeCanvas 400 300 s800).pool.get? 0 = some ⟨700, 500, 0, 0, 0⟩ ∧
      ¬ ((700 : ℝ) < 400) :=
  ⟨rfl, by norm_num⟩

/-- C4 (amended): the handler registered for container resize only rescales
the canvas and leaves the particle pool untouched; reinitialization (which
does yield `particleCount` particles with fresh positions in
`[0, width)×[0, height)` and zero velocities) happens only when
`initParticles` runs — on mount or on a parameter change, not on a resize
event. -/
theorem resize_preserves_pool (nw nh : ℝ) (s : CanvasState)
    (rnd : ℕ → ℝ × ℝ × ℝ) (n : ℕ) (w h : ℝ)
    (hr : ∀ k, 0 ≤ (rnd k).1 ∧ (rnd k).1 < 1 ∧ 0 ≤ (rnd k).2.1 ∧
      (rnd k).2.1 < 1)
    (hw : 0 < w) (hh : 0 < h) :
    (resizeCanvas nw nh s).pool = s.pool ∧
      (resizeCanvas nw nh s).width = nw ∧
      (resizeCanvas nw nh s).height = nh ∧
      (initParticles rnd n w h).length = n ∧
      ∀ p ∈ initParticles rnd n w h,
        0 ≤ p.x ∧ p.x < w ∧ 0 ≤ p.y ∧ p.y < h ∧ p.vx = 0 ∧ p.vy = 0 := by
  refine ⟨rfl, rfl, rfl, by simp [initParticles], ?_⟩
  intro p hp
  simp only [initParticles, List.mem_map, List.mem_range] at hp
  obtain ⟨k, hk, hpk⟩ := hp
  rw [← hpk]
  exact ⟨mul_nonneg (hr k).1 (le_of_lt hw),
    mul_lt_of_lt_one_left hw (hr k).2.1,
    mul_nonneg (hr k).2.2.1 (le_of_lt hh),
    mul_lt_of_lt_one_left hh (hr k).2.2.2, rfl, rfl⟩

/-- A constant random oracle drawing `1/2` for both coordinates. -/
noncomputable def rndHalf : ℕ → ℝ × ℝ × ℝ := fun _ => (1 / 2, 1 / 2, 0)

/-- C4 witness: the amended statement at the 800×600 → 400×300 resize and a
2-particle reinitialization on a 400×300 surface. -/
theorem resize_preserves_pool_witness :
    (resizeCanvas 400 300 s800).pool = s800.pool ∧
      (resizeCanvas 400 300 s800).width = 400 ∧
      (resizeCanvas 400 300 s800).height = 300 ∧
      (initParticles rndHalf 2 400 300).length = 2 ∧
      ∀ p ∈ initParticles rndHalf 2 400 300,
        0 ≤ p.x ∧ p.x < 400 ∧ 0 ≤ p.y ∧ p.y < 300 ∧ p.vx = 0 ∧ p.vy = 0 :=
  resize_preserves_pool 400 300 s800 rndHalf 2 400 300
    (fun k => by simp only [rndHalf]; norm_num) (by norm_num) (by norm_num)

/-! SVG path compilation lifecycle (C8). -/

/-- Initial SVG state for the witness: no compiled path, no error, one
particle in the pool. -/
def s0w : SvgState (List Char) := ⟨none, "", [⟨1, 2, 3, 4, 5⟩]⟩

/-- C8: with `shape = customSVG`, compiling from a string the parser accepts
caches a compiled path (error cleared) that the renderer fills; compiling
from a rejected string leaves no compiled path (the renderer draws nothing
for the particle) and surfaces the error message; a subsequent accepted
string restores the compiled path and rendering, and the particle pool is
never touched by this effect — no pool reset happens. -/
theorem svg_compile_lifecycle {α : Type} (parse : String → Option α)
    (good bad : String) (q : α) (s0 : SvgState α)
    (hg : parse good = some q) (hb : parse bad = none) :
    (compileEffect parse Shape.customSVG good s0).compiledPath = some q ∧
      (compileEffect parse Shape.customSVG good s0).svgError = "" ∧
      renderShape Shape.customSVG
        (compileEffect parse Shape.customSVG good s0).compiledPath =
        DrawCmd.fillPath q ∧
      (compileEffect parse Shape.customSVG bad
        (compileEffect parse Shape.customSVG good s0)).compiledPath = none ∧
      (compileEffect parse Shape.customSVG bad
        (compileEffect parse Shape.customSVG good s0)).svgError =
        svgErrorMsg ∧
      renderShape Shape.customSVG
        (compileEffect parse Shape.customSVG bad
          (compileEffect parse Shape.customSVG good s0)).compiledPath =
        DrawCmd.noDraw ∧
      (compileEffect parse Shape.customSVG good
        (compileEffect parse Shape.customSVG bad
          (compileEffect parse Shape.customSVG good s0))).compiledPath =
        some q ∧
      (compileEffect parse Shape.customSVG good
        (compileEffect parse Shape.customSVG bad
          (compileEffect parse Shape.customSVG good s0))).svgError = "" ∧
      renderShape Shape.customSVG
        (compileEffect parse Shape.customSVG good
          (compileEffect parse Shape.customSVG bad
            (compileEffect parse Shape.customSVG good s0))).compiledPath =
        DrawCmd.fillPath q ∧
      (compileEffect parse Shape.customSVG good
        (compileEffect parse Shape.customSVG bad
          (compileEffect parse Shape.customSVG good s0))).pool = s0.pool := by
  simp [compileEffect, hg, hb, renderShape]

/-- C8 witness: the lifecycle at the spec-modelled `Path2D` parser, the
known-valid string `M0 -1 L1 0 L0 1` and the known-invalid string
`Z Z Z (`, starting from a one-particle pool. -/
theorem svg_compile_lifecycle_witness :
    (compileEffect path2DParse Shape.customSVG goodPath s0w).compiledPath =
        some goodPath.toList ∧
      (compileEffect path2DParse Shape.customSVG goodPath s0w).svgError =
        "" ∧
      renderShape Shape.customSVG
        (compileEffect path2DParse Shape.customSVG goodPath
          s0w).compiledPath = DrawCmd.fillPath goodPath.toList ∧
      (compileEffect path2DParse Shape.customSVG badPath
        (compileEffect path2DParse Shape.customSVG goodPath
          s0w)).compiledPath = none ∧
      (compileEffect path2DParse Shape.customSVG badPath
        (compileEffect path2DParse Shape.customSVG goodPath s0w)).svgError =
        svgErrorMsg ∧
      renderShape Shape.customSVG
        (compileEffect path2DParse Shape.customSVG badPath
          (compileEffect path2DParse Shape.customSVG goodPath
            s0w)).compiledPath = DrawCmd.noDraw ∧
      (compileEffect path2DParse Shape.customSVG goodPath
        (compileEffect path2DParse Shape.customSVG badPath
          (compileEffect path2DParse Shape.customSVG goodPath
            s0w))).compiledPath = some goodPath.toList ∧
      (compileEffect path2DParse Shape.customSVG goodPath
        (compileEffect path2DParse Shape.customSVG badPath
          (compileEffect path2DParse Shape.customSVG goodPath
            s0w))).svgError = "" ∧
      renderShape Shape.customSVG
        (compileEffect path2DParse Shape.customSVG goodPath
          (compileEffect path2DParse Shape.customSVG badPath
            (compileEffect path2DParse Shape.customSVG goodPath
              s0w))).compiledPath = DrawCmd.fillPath goodPath.toList ∧
      (compileEffect path2DParse Shape.customSVG goodPath
        (compileEffect path2DParse Shape.customSVG badPath
          (compileEffect path2DParse Shape.customSVG goodPath
            s0w))).pool = s0w.pool :=
  svg_compile_lifecycle path2DParse goodPath badPath goodPath.toList s0w
    (by decide) (by decide)

end Swarm
